import Mathlib

/-!
Shallow embedding of the CAROMAR server core (a Node.js/Express proxy over the
GitHub REST API) and proofs about its validation utilities, comparison and
analytics helpers, and request handlers.

Conventions of the embedding:
* JavaScript strings are modelled as `List Char` (`Str`).
* A JavaScript request value (which may be a string, a number, a boolean,
  `null` or `undefined`) is modelled by the inductive type `JSVal`.
  JavaScript numbers arriving in these code paths are used as integers, so
  `num` carries an `Int`; exact rational arithmetic (`ℚ`) replaces IEEE
  floating point where the source divides, which is faithful for the
  magnitudes involved.
* ISO-8601 timestamp strings parsed with `new Date(...)` are modelled as
  integer epoch milliseconds; `new Date(s)` is then the identity and date
  comparison/subtraction is integer comparison/subtraction.
* A fallible or absent value is an `Option`; a handler is a function from its
  request inputs to an inductive response type whose constructors separate a
  local validation rejection from the outbound upstream call, so "no upstream
  call is made" is visible as the constructor of the result.
-/

set_option maxRecDepth 10000

namespace Caromar

/-- JavaScript strings are modelled as lists of characters. -/
abbrev Str := List Char

/-- The characters removed by JavaScript `String.prototype.trim`
(ECMAScript WhiteSpace and LineTerminator code points): TAB, LF, VT, FF, CR,
SPACE, NBSP, BOM, the line and paragraph separators, and every other
Space_Separator code point (U+1680, U+2000–U+200A, U+202F, U+205F, U+3000). -/
def isJsWhitespace (c : Char) : Bool :=
  c = ' ' || c = '\t' || c = '\n' || c = '\r' ||
  c = Char.ofNat 11 || c = Char.ofNat 12 || c = Char.ofNat 160 ||
  c = Char.ofNat 0x1680 || (Char.ofNat 0x2000 ≤ c && c ≤ Char.ofNat 0x200A) ||
  c = Char.ofNat 0x202F || c = Char.ofNat 0x205F || c = Char.ofNat 0x3000 ||
  c = Char.ofNat 0xFEFF || c = Char.ofNat 0x2028 || c = Char.ofNat 0x2029

/-- Remove trailing whitespace (the right half of `trim`). -/
def dropTrailingWs (s : Str) : Str :=
  (s.reverse.dropWhile isJsWhitespace).reverse

/-- JavaScript `String.prototype.trim`: strip leading and trailing whitespace. -/
def jsTrim (s : Str) : Str :=
  dropTrailingWs (s.dropWhile isJsWhitespace)

/-- JavaScript `Math.round`: round half towards positive infinity. -/
def jsRound (q : ℚ) : Int := ⌊q + 1 / 2⌋

/-- A JavaScript value as it can arrive in a request body, query or header. -/
inductive JSVal where
  | str (s : Str)
  | num (n : Int)
  | bool (b : Bool)
  | null
  | undef
deriving DecidableEq

/-- JavaScript truthiness of a `JSVal` (`''`, `0`, `false`, `null` and
`undefined` are falsy). -/
def jsTruthy : JSVal → Bool
  | .str s => !s.isEmpty
  | .num n => decide (n ≠ 0)
  | .bool b => b
  | .null => false
  | .undef => false

/-- JavaScript string coercion `String(v)` for the value shapes above,
used where the source interpolates a request value into text. -/
def jsDisplay : JSVal → Str
  | .str s => s
  | .num n => (toString n).toList
  | .bool b => (toString b).toList
  | .null => "null".toList
  | .undef => "undefined".toList

/-- JavaScript `x || d` on an optional string (`''` and `null`/`undefined`
are falsy and select the default). -/
def jsOrStr (v : Option Str) (d : Str) : Str :=
  match v with
  | some s => if s.isEmpty then d else s
  | none => d

/-! ### utils/validation.js -/

/-- The regex character class `[a-zA-Z0-9]`. -/
def isAlphaNumChar (c : Char) : Bool :=
  ('a' ≤ c && c ≤ 'z') || ('A' ≤ c && c ≤ 'Z') || ('0' ≤ c && c ≤ '9')

/-- The regex character class `[a-zA-Z0-9-]`. -/
def isUsernameChar (c : Char) : Bool := isAlphaNumChar c || c = '-'

/-- The optional group `([a-zA-Z0-9-]{0,37}[a-zA-Z0-9])?` of the username
regex, applied to everything after the first character: it matches the empty
remainder, or a remainder of up to 38 characters whose last character is
alphanumeric and whose other characters are alphanumeric or hyphen. -/
def usernameTailMatches (rest : Str) : Bool :=
  match rest with
  | [] => true
  | _ => decide (rest.dropLast.length ≤ 37) && rest.dropLast.all isUsernameChar &&
      isAlphaNumChar (rest.getLastD ' ')

/-- `isValidGitHubUsername` from utils/validation.js: non-strings and the
empty string (both falsy or failing the `typeof` check) are invalid, and a
non-empty string is tested against `^[a-zA-Z0-9]([a-zA-Z0-9-]{0,37}[a-zA-Z0-9])?$`:
an alphanumeric first character followed by a match of the optional group. -/
def isValidGitHubUsername (username : JSVal) : Bool :=
  match username with
  | .str [] => false
  | .str (c :: rest) => isAlphaNumChar c && usernameTailMatches rest
  | _ => false

/-- The regex character class `[a-zA-Z0-9._-]`. -/
def isRepoNameChar (c : Char) : Bool :=
  isAlphaNumChar c || c = '.' || c = '_' || c = '-'

/-- `isValidRepositoryName` from utils/validation.js: the regex
`^[a-zA-Z0-9._-]{1,100}$` on strings, false on everything else. -/
def isValidRepositoryName (repoName : JSVal) : Bool :=
  match repoName with
  | .str s => decide (1 ≤ s.length) && decide (s.length ≤ 100) && s.all isRepoNameChar
  | _ => false

/-- `isValidGitHubToken` from utils/validation.js: a string of 40 to 255
characters (falsy and non-string inputs are rejected first). -/
def isValidGitHubToken (token : JSVal) : Bool :=
  match token with
  | .str s => !s.isEmpty && (decide (40 ≤ s.length) && decide (s.length ≤ 255))
  | _ => false

/-- `sanitizeString` from utils/validation.js: a non-string becomes the empty
string; a string has every `<` and `>` removed, is trimmed, and is truncated
to its first 1000 characters. -/
def sanitizeString (input : JSVal) : Str :=
  match input with
  | .str s => (jsTrim (s.filter (fun c => !(c = '<' || c = '>')))).take 1000
  | _ => []

/-- The regex character class `[0-9]`. -/
def isDigitChar (c : Char) : Bool := '0' ≤ c && c ≤ '9'

/-- Decimal value of a digit string. -/
def digitsToNat (ds : Str) : Nat :=
  ds.foldl (fun acc c => acc * 10 + (c.toNat - '0'.toNat)) 0

/-- The maximal leading run of decimal digits, or `none` when there is none. -/
def leadingDigits (l : Str) : Option Int :=
  let ds := l.takeWhile isDigitChar
  if ds.isEmpty then none else some (digitsToNat ds : Int)

/-- Models JavaScript `parseInt` on the value shapes above: a number parses to
itself, a string is read as optional whitespace, an optional sign and a
maximal run of decimal digits (`none` models `NaN`), and every other value is
`NaN`. Hexadecimal (`0x`) prefixes are not modelled. -/
def jsParseInt (v : JSVal) : Option Int :=
  match v with
  | .num n => some n
  | .str s =>
    match s.dropWhile isJsWhitespace with
    | '-' :: rest => (leadingDigits rest).map (fun n => -n)
    | '+' :: rest => leadingDigits rest
    | rest => leadingDigits rest
  | _ => none

/-- JavaScript `x || d` where `x` is the result of `parseInt` (`NaN` and `0`
are falsy and select the default). -/
def jsOrInt (x : Option Int) (d : Int) : Int :=
  match x with
  | some k => if k = 0 then d else k
  | none => d

/-- `validatePagination` from utils/validation.js:
`Math.max(1, parseInt(page) || 1)` and
`Math.min(100, Math.max(1, parseInt(perPage) || 30))`. -/
def validatePagination (page perPage : JSVal) : Int × Int :=
  (max 1 (jsOrInt (jsParseInt page) 1),
   min 100 (max 1 (jsOrInt (jsParseInt perPage) 30)))

/-! ### The repository record (§3 of the spec; the fields read by the core) -/

/-- The `license` object of a repository record; only its `name` is read
(via `repo.license?.name`). -/
structure License where
  name : Str
deriving DecidableEq

/-- A repository record as consumed by comparison.js and analytics.js.
`language`, `license` and `topics` may be absent (`null`/missing in JSON);
count fields and the kilobyte size are integers; `created_at`/`updated_at`
are epoch-millisecond timestamps (see the module docstring). -/
structure Repo where
  name : Str
  language : Option Str
  license : Option License
  topics : Option (List Str)
  size : Int
  stargazers_count : Int
  forks_count : Int
  watchers_count : Int
  open_issues_count : Int
  «private» : Bool
  fork : Bool
  archived : Bool
  created_at : Int
  updated_at : Int
deriving DecidableEq, Inhabited

/-- `repo.license?.name`: the license name when a license is present. -/
def licenseName (r : Repo) : Option Str := r.license.map License.name

/-- `repo.topics || []`: the topics list, defaulting to empty when absent. -/
def jsTopics (r : Repo) : List Str := r.topics.getD []

/-- Stable sort with a JavaScript-style numeric comparator, as
`Array.prototype.sort` (stable since ES2019): `a` stays before `b` whenever
`cmp a b ≤ 0`. -/
def jsSortBy {α : Type} (cmp : α → α → Int) (l : List α) : List α :=
  l.mergeSort (fun a b => decide (cmp a b ≤ 0))

/-! ### utils/comparison.js — calculateSimilarity -/

/-- Language similarity component (20 points on strict equality). -/
def languageScore (repo1 repo2 : Repo) : ℚ :=
  if repo1.language = repo2.language then 20 else 0

/-- License similarity component (10 points when `license?.name` agree). -/
def licenseScore (repo1 repo2 : Repo) : ℚ :=
  if licenseName repo1 = licenseName repo2 then 10 else 0

/-- `topics1.filter(topic => topics2.includes(topic))`. -/
def commonTopics (repo1 repo2 : Repo) : List Str :=
  (jsTopics repo1).filter (fun t => decide (t ∈ jsTopics repo2))

/-- `new Set([...topics1, ...topics2]).size`: the number of distinct topics
in the two lists together. -/
def totalTopics (repo1 repo2 : Repo) : Nat :=
  ((jsTopics repo1 ++ jsTopics repo2).dedup).length

/-- Topic similarity component: `(commonTopics.length / totalTopics) * 30`
when the union is non-empty, otherwise nothing is added. -/
def topicsScore (repo1 repo2 : Repo) : ℚ :=
  if 0 < totalTopics repo1 repo2 then
    ((commonTopics repo1 repo2).length : ℚ) / (totalTopics repo1 repo2 : ℚ) * 30
  else 0

/-- Size similarity component: with `sizeDiff = |size1 − size2|` and
`avgSize = (size1 + size2) / 2`, adds `Math.max(0, (1 − sizeDiff/avgSize) * 20)`
when `avgSize > 0` and nothing otherwise. -/
def sizeScore (repo1 repo2 : Repo) : ℚ :=
  let sizeDiff : ℚ := |(repo1.size : ℚ) - (repo2.size : ℚ)|
  let avgSize : ℚ := ((repo1.size : ℚ) + (repo2.size : ℚ)) / 2
  if 0 < avgSize then max 0 ((1 - sizeDiff / avgSize) * 20) else 0

/-- Visibility similarity component (10 points when `private` flags agree). -/
def visibilityScore (repo1 repo2 : Repo) : ℚ :=
  if repo1.«private» = repo2.«private» then 10 else 0

/-- Fork-status similarity component (10 points when `fork` flags agree). -/
def forkScore (repo1 repo2 : Repo) : ℚ :=
  if repo1.fork = repo2.fork then 10 else 0

/-- The accumulated `maxScore` of `calculateSimilarity`
(20 + 10 + 30 + 20 + 10 + 10). -/
def similarityMaxScore : ℚ := 20 + 10 + 30 + 20 + 10 + 10

/-- `RepositoryComparison.calculateSimilarity`: the weighted component sum,
normalised by `maxScore`, scaled to 100 and rounded with `Math.round`. -/
def calculateSimilarity (repo1 repo2 : Repo) : Int :=
  jsRound ((languageScore repo1 repo2 + licenseScore repo1 repo2 +
    topicsScore repo1 repo2 + sizeScore repo1 repo2 +
    visibilityScore repo1 repo2 + forkScore repo1 repo2) / similarityMaxScore * 100)

/-! ### utils/comparison.js — compareTwo -/

/-- One count metric of `compareTwo` (stars, forks, watchers): both raw
values, their difference, and the `winner` ternary. -/
structure CountMetric where
  repo1 : Int
  repo2 : Int
  difference : Int
  winner : Str
deriving DecidableEq

/-- The `size` metric of `compareTwo`; its ternary field is named `larger`. -/
structure SizeMetric where
  repo1 : Int
  repo2 : Int
  difference : Int
  larger : Str
deriving DecidableEq

/-- The `issues` metric of `compareTwo`; its ternary field is named `more`. -/
structure IssuesMetric where
  repo1 : Int
  repo2 : Int
  difference : Int
  more : Str
deriving DecidableEq

/-- The `metrics` object of `compareTwo`. -/
structure TwoMetrics where
  stars : CountMetric
  forks : CountMetric
  watchers : CountMetric
  size : SizeMetric
  issues : IssuesMetric
deriving DecidableEq

/-- One attribute row of `compareTwo`: both displayed values and a `same`
flag. -/
structure AttributePair (α : Type) where
  repo1 : α
  repo2 : α
  same : Bool
deriving DecidableEq

/-- The `attributes` object of `compareTwo`. -/
structure TwoAttributes where
  languages : AttributePair Str
  license : AttributePair Str
  visibility : AttributePair Str
  archived : AttributePair Bool
deriving DecidableEq

/-- The `dates.created` object of `compareTwo`. -/
structure CreatedDates where
  repo1 : Int
  repo2 : Int
  older : Str
  daysDifference : ℚ
deriving DecidableEq

/-- The `dates.updated` object of `compareTwo`. -/
structure UpdatedDates where
  repo1 : Int
  repo2 : Int
  moreRecent : Str
  daysDifference : ℚ
deriving DecidableEq

/-- The `dates` object of `compareTwo`. -/
structure TwoDates where
  created : CreatedDates
  updated : UpdatedDates
deriving DecidableEq

/-- The `topics` object of `compareTwo`. -/
structure TwoTopics where
  repo1 : List Str
  repo2 : List Str
  common : List Str
  unique_to_repo1 : List Str
  unique_to_repo2 : List Str
deriving DecidableEq

/-- The `names` object of `compareTwo`. -/
structure TwoNames where
  repo1 : Str
  repo2 : Str
deriving DecidableEq

/-- The full result object of `RepositoryComparison.compareTwo`. -/
structure TwoComparison where
  names : TwoNames
  metrics : TwoMetrics
  attributes : TwoAttributes
  dates : TwoDates
  topics : TwoTopics
  similarity : Int
deriving DecidableEq

/-- `RepositoryComparison.compareTwo`, field for field. Every `winner` /
`larger` / `more` / `older` / `moreRecent` ternary keeps the source's strict
comparison, so the second repository's name is reported on ties. -/
def compareTwo (repo1 repo2 : Repo) : TwoComparison :=
  { names := { repo1 := repo1.name, repo2 := repo2.name }
    metrics :=
      { stars :=
          { repo1 := repo1.stargazers_count, repo2 := repo2.stargazers_count
            difference := repo1.stargazers_count - repo2.stargazers_count
            winner := if repo1.stargazers_count > repo2.stargazers_count then
              repo1.name else repo2.name }
        forks :=
          { repo1 := repo1.forks_count, repo2 := repo2.forks_count
            difference := repo1.forks_count - repo2.forks_count
            winner := if repo1.forks_count > repo2.forks_count then
              repo1.name else repo2.name }
        watchers :=
          { repo1 := repo1.watchers_count, repo2 := repo2.watchers_count
            difference := repo1.watchers_count - repo2.watchers_count
            winner := if repo1.watchers_count > repo2.watchers_count then
              repo1.name else repo2.name }
        size :=
          { repo1 := repo1.size, repo2 := repo2.size
            difference := repo1.size - repo2.size
            larger := if repo1.size > repo2.size then repo1.name else repo2.name }
        issues :=
          { repo1 := repo1.open_issues_count, repo2 := repo2.open_issues_count
            difference := repo1.open_issues_count - repo2.open_issues_count
            more := if repo1.open_issues_count > repo2.open_issues_count then
              repo1.name else repo2.name } }
    attributes :=
      { languages :=
          { repo1 := jsOrStr repo1.language "None".toList
            repo2 := jsOrStr repo2.language "None".toList
            same := decide (repo1.language = repo2.language) }
        license :=
          { repo1 := jsOrStr (licenseName repo1) "None".toList
            repo2 := jsOrStr (licenseName repo2) "None".toList
            same := decide (licenseName repo1 = licenseName repo2) }
        visibility :=
          { repo1 := if repo1.«private» then "Private".toList else "Public".toList
            repo2 := if repo2.«private» then "Private".toList else "Public".toList
            same := decide (repo1.«private» = repo2.«private») }
        archived :=
          { repo1 := repo1.archived, repo2 := repo2.archived
            same := decide (repo1.archived = repo2.archived) } }
    dates :=
      { created :=
          { repo1 := repo1.created_at, repo2 := repo2.created_at
            older := if repo1.created_at < repo2.created_at then
              repo1.name else repo2.name
            daysDifference :=
              |((repo1.created_at : ℚ) - repo2.created_at)| / (1000 * 60 * 60 * 24) }
        updated :=
          { repo1 := repo1.updated_at, repo2 := repo2.updated_at
            moreRecent := if repo1.updated_at > repo2.updated_at then
              repo1.name else repo2.name
            daysDifference :=
              |((repo1.updated_at : ℚ) - repo2.updated_at)| / (1000 * 60 * 60 * 24) } }
    topics :=
      { repo1 := jsTopics repo1, repo2 := jsTopics repo2
        common := commonTopics repo1 repo2
        unique_to_repo1 :=
          (jsTopics repo1).filter (fun t => !decide (t ∈ jsTopics repo2))
        unique_to_repo2 :=
          (jsTopics repo2).filter (fun t => !decide (t ∈ jsTopics repo1)) }
    similarity := calculateSimilarity repo1 repo2 }

/-! ### utils/comparison.js — findBest and compareMultiple -/

/-- The comparator table `sortFunctions` of `findBest`, with the
`sortFunctions[criteria] || sortFunctions.stars` fallback for an unknown
criterion. -/
def sortCompare (criteria : Str) (a b : Repo) : Int :=
  if criteria = "stars".toList then b.stargazers_count - a.stargazers_count
  else if criteria = "forks".toList then b.forks_count - a.forks_count
  else if criteria = "watchers".toList then b.watchers_count - a.watchers_count
  else if criteria = "recent".toList then b.updated_at - a.updated_at
  else if criteria = "size".toList then b.size - a.size
  else if criteria = "issues".toList then a.open_issues_count - b.open_issues_count
  else b.stargazers_count - a.stargazers_count

/-- `RepositoryComparison.getMetricValue`: the metric table lookup with
`|| 0` — an unknown metric name yields 0 (and a stored 0 is unchanged). -/
def getMetricValue (repo : Repo) (metric : Str) : Int :=
  if metric = "stars".toList then repo.stargazers_count
  else if metric = "forks".toList then repo.forks_count
  else if metric = "watchers".toList then repo.watchers_count
  else if metric = "recent".toList then repo.updated_at
  else if metric = "size".toList then repo.size
  else if metric = "issues".toList then repo.open_issues_count
  else 0

/-- One element of the `rankings` list of `findBest`. -/
structure Ranking where
  rank : Nat
  name : Str
  value : Int
deriving DecidableEq

/-- The result of `RepositoryComparison.findBest`: `best` is `sorted[0]`
(`undefined`, i.e. `none`, on an empty input). -/
structure BestResult where
  best : Option Repo
  rankings : List Ranking
  criteria : Str
deriving DecidableEq

/-- `RepositoryComparison.findBest`. -/
def findBest (repositories : List Repo) (criteria : Str) : BestResult :=
  let sorted := jsSortBy (sortCompare criteria) repositories
  { best := sorted.head?
    rankings := sorted.enum.map (fun p =>
      { rank := p.1 + 1, name := p.2.name, value := getMetricValue p.2 criteria })
    criteria := criteria }

/-- One entry of the `compareMultiple` matrix. -/
structure MatrixEntry where
  name : Str
  value : Int
  rank : Nat
deriving DecidableEq

/-- One metric column of `compareMultiple`: map to `{name, value, rank: 0}`,
sort descending by value, then assign `rank = index + 1`. -/
def rankByMetric (value : Repo → Int) (repositories : List Repo) : List MatrixEntry :=
  let entries := repositories.map (fun repo =>
    ({ name := repo.name, value := value repo, rank := 0 } : MatrixEntry))
  let sorted := jsSortBy (fun a b => b.value - a.value) entries
  sorted.enum.map (fun p => { p.2 with rank := p.1 + 1 })

/-- The matrix returned by `RepositoryComparison.compareMultiple`, keyed by
the five count metrics. -/
structure CompareMatrix where
  stargazers_count : List MatrixEntry
  forks_count : List MatrixEntry
  watchers_count : List MatrixEntry
  size : List MatrixEntry
  open_issues_count : List MatrixEntry
deriving DecidableEq

/-- `RepositoryComparison.compareMultiple`. -/
def compareMultiple (repositories : List Repo) : CompareMatrix :=
  { stargazers_count := rankByMetric Repo.stargazers_count repositories
    forks_count := rankByMetric Repo.forks_count repositories
    watchers_count := rankByMetric Repo.watchers_count repositories
    size := rankByMetric Repo.size repositories
    open_issues_count := rankByMetric Repo.open_issues_count repositories }

/-! ### utils/analytics.js -/

/-- The `getTotalStats` result object. -/
structure TotalStats where
  totalRepos : Nat
  totalStars : Int
  totalForks : Int
  totalWatchers : Int
  totalSize : Int
  totalIssues : Int
  privateRepos : Nat
  forkedRepos : Nat
  archivedRepos : Nat
deriving DecidableEq

/-- `RepositoryAnalytics.getTotalStats`: the reductions and filter counts. -/
def getTotalStats (repositories : List Repo) : TotalStats :=
  { totalRepos := repositories.length
    totalStars := (repositories.map Repo.stargazers_count).sum
    totalForks := (repositories.map Repo.forks_count).sum
    totalWatchers := (repositories.map Repo.watchers_count).sum
    totalSize := (repositories.map Repo.size).sum
    totalIssues := (repositories.map Repo.open_issues_count).sum
    privateRepos := (repositories.filter (fun r => r.«private»)).length
    forkedRepos := (repositories.filter (fun r => r.fork)).length
    archivedRepos := (repositories.filter (fun r => r.archived)).length }

/-- Increment the count of `lang` in an insertion-ordered association list
(the JavaScript object `languages` keyed in first-seen order). -/
def bumpLanguage (acc : List (Str × Nat)) (lang : Str) : List (Str × Nat) :=
  if acc.any (fun p => decide (p.1 = lang)) then
    acc.map (fun p => if p.1 = lang then (p.1, p.2 + 1) else p)
  else acc ++ [(lang, 1)]

/-- `RepositoryAnalytics.getLanguageDistribution`: count repositories per
truthy (present, non-empty) language in first-seen order, then stable-sort
the entries descending by count. -/
def getLanguageDistribution (repositories : List Repo) : List (Str × Nat) :=
  let languages := repositories.foldl (fun acc repo =>
    match repo.language with
    | some lang => if lang.isEmpty then acc else bumpLanguage acc lang
    | none => acc) []
  jsSortBy (fun a b => (b.2 : Int) - (a.2 : Int)) languages

/-- `RepositoryAnalytics.getMostPopular`: stable-sort descending by stars,
take the first `limit`. -/
def getMostPopular (repositories : List Repo) (limit : Nat) : List Repo :=
  (jsSortBy (fun a b => b.stargazers_count - a.stargazers_count) repositories).take limit

/-- `RepositoryAnalytics.getRecentlyUpdated`: stable-sort descending by
`updated_at`, take the first `limit`. -/
def getRecentlyUpdated (repositories : List Repo) (limit : Nat) : List Repo :=
  (jsSortBy (fun a b => b.updated_at - a.updated_at) repositories).take limit

/-- The `getAverageMetrics` result object (present only on non-empty input). -/
structure AverageMetrics where
  avgStars : Int
  avgForks : Int
  avgWatchers : Int
  avgSize : Int
  avgIssues : Int
deriving DecidableEq

/-- `RepositoryAnalytics.getAverageMetrics`: `null` on an empty list,
otherwise each total divided by the count and rounded with `Math.round`. -/
def getAverageMetrics (repositories : List Repo) : Option AverageMetrics :=
  let count := repositories.length
  if count = 0 then none
  else
    let stats := getTotalStats repositories
    some
      { avgStars := jsRound ((stats.totalStars : ℚ) / count)
        avgForks := jsRound ((stats.totalForks : ℚ) / count)
        avgWatchers := jsRound ((stats.totalWatchers : ℚ) / count)
        avgSize := jsRound ((stats.totalSize : ℚ) / count)
        avgIssues := jsRound ((stats.totalIssues : ℚ) / count) }

/-- Proleptic-Gregorian (year, 1-based month) of a day count since the Unix
epoch — the year/month components a JavaScript `Date` reports (UTC) for a
timestamp, via the standard civil-from-days algorithm. -/
def civilYearMonth (days : Int) : Int × Int :=
  let z := days + 719468
  let era := Int.fdiv z 146097
  let doe := z - era * 146097
  let yoe := Int.fdiv (doe - Int.fdiv doe 1460 + Int.fdiv doe 36524 - Int.fdiv doe 146096) 365
  let y := yoe + era * 400
  let doy := doe - (365 * yoe + Int.fdiv yoe 4 - Int.fdiv yoe 100)
  let mp := Int.fdiv (5 * doy + 2) 153
  let m := if mp < 10 then mp + 3 else mp - 9
  (if m ≤ 2 then y + 1 else y, m)

/-- `RepositoryAnalytics.getActivityTimeline`: an insertion-ordered map from
the `year-month` key of each `created_at` to the number of repositories
created that month. -/
def getActivityTimeline (repositories : List Repo) : List ((Int × Int) × Nat) :=
  repositories.foldl (fun timeline repo =>
    let key := civilYearMonth (Int.fdiv repo.created_at 86400000)
    if timeline.any (fun p => decide (p.1 = key)) then
      timeline.map (fun p => if p.1 = key then (p.1, p.2 + 1) else p)
    else timeline ++ [(key, 1)]) []

/-- `(new Date() − new Date(r.updated_at)) / (1000*60*60*24)`: the age of the
last update in days, relative to the call-time clock `now`. -/
def daysSinceUpdate (now : Int) (r : Repo) : ℚ :=
  ((now : ℚ) - r.updated_at) / (1000 * 60 * 60 * 24)

/-- `RepositoryAnalytics.getSpecialRepos`: the `trending` / `abandoned` /
`active` buckets (any other type returns the input unchanged). `now` is the
wall-clock instant the source reads with `new Date()`. -/
def getSpecialRepos (now : Int) (repositories : List Repo) (type : Str) : List Repo :=
  if type = "trending".toList then
    jsSortBy (fun a b => b.stargazers_count - a.stargazers_count)
      ((repositories.filter (fun r => decide (r.stargazers_count > 10))).filter
        (fun r => decide (daysSinceUpdate now r < 30)))
  else if type = "abandoned".toList then
    repositories.filter (fun r => decide (daysSinceUpdate now r > 365))
  else if type = "active".toList then
    repositories.filter (fun r => decide (daysSinceUpdate now r < 7))
  else repositories

/-- The result object of `RepositoryAnalytics.generateReport`. -/
structure Report where
  overview : TotalStats
  languages : List (Str × Nat)
  topRepositories : List Repo
  recentActivity : List Repo
  averages : Option AverageMetrics
  timeline : List ((Int × Int) × Nat)
  trending : Nat
  abandoned : Nat
  active : Nat
deriving DecidableEq

/-- `RepositoryAnalytics.generateReport`. -/
def generateReport (now : Int) (repositories : List Repo) : Report :=
  { overview := getTotalStats repositories
    languages := getLanguageDistribution repositories
    topRepositories := getMostPopular repositories 5
    recentActivity := getRecentlyUpdated repositories 5
    averages := getAverageMetrics repositories
    timeline := getActivityTimeline repositories
    trending := (getSpecialRepos now repositories "trending".toList).length
    abandoned := (getSpecialRepos now repositories "abandoned".toList).length
    active := (getSpecialRepos now repositories "active".toList).length }

/-! ### server.js handlers

Each handler is embedded up to its first outbound GitHub call: the response
type separates a local validation rejection (`badRequest`, the 400 JSON
bodies) from the upstream request the handler would issue, so a theorem about
the constructor of the result is a theorem about whether an upstream call is
made. -/

/-- `req.body.repositories` as seen by the `!repositories ||
!Array.isArray(repositories)` guard: either not an array (including missing,
`null`, or any non-array value) or an array of records. -/
inductive ReposField (α : Type) where
  | notArray
  | arr (l : List α)
deriving DecidableEq

/-- The fields of one entry of the `repositories` list of
`POST /api/create-merged-repo` that the handler reads. -/
structure RepoSummary where
  name : JSVal
  clone_url : Str
deriving DecidableEq

/-- Extract the bearer token:
`authHeader?.startsWith('Bearer ') ? authHeader.substring(7) : null`. -/
def extractBearerToken (authHeader : Option Str) : Option Str :=
  match authHeader with
  | some h => if h.take 7 = "Bearer ".toList then some (h.drop 7) else none
  | none => none

/-- The response of `GET /api/user`, up to the first upstream call. -/
inductive UserResponse where
  | badRequest (error : Str)
  | upstream (token : Str)
deriving DecidableEq

/-- The `GET /api/user` handler: the token comes only from the
`Authorization` header (the query string is never read, which the unused
`_query` argument records); `!token || !isValidGitHubToken(token)` rejects
with 400 before any upstream call. -/
def apiUserHandler (authHeader : Option Str) (_query : List (Str × Str)) : UserResponse :=
  match extractBearerToken authHeader with
  | none => .badRequest "Valid token is required".toList
  | some t =>
    if !jsTruthy (.str t) || !isValidGitHubToken (.str t) then
      .badRequest "Valid token is required".toList
    else .upstream t

/-- The body of the repository-creation call `POST /api/create-merged-repo`
would issue upstream. -/
structure CreateRepoPayload where
  name : Str
  description : Str
  «private» : Bool
deriving DecidableEq

/-- The response of `POST /api/create-merged-repo`, up to the upstream
repository-creation call. -/
inductive MergedRepoResponse where
  | badRequest (error : Str)
  | createRepo (payload : CreateRepoPayload)
deriving DecidableEq

/-- The `POST /api/create-merged-repo` handler: sanitize and validate the
name, then require a non-empty array of at most 50 repositories, then a
valid token, and only then issue the upstream creation call (whose
description defaults to a list of the source names). -/
def createMergedRepoHandler (name description : JSVal)
    (repositories : ReposField RepoSummary) (token : JSVal) (isPrivate : Bool) :
    MergedRepoResponse :=
  let name' := sanitizeString name
  if !jsTruthy (.str name') || !isValidRepositoryName (.str name') then
    .badRequest "Valid repository name is required".toList
  else
    match repositories with
    | .notArray => .badRequest "At least one repository is required".toList
    | .arr l =>
      if l.length = 0 then
        .badRequest "At least one repository is required".toList
      else if l.length > 50 then
        .badRequest "Maximum 50 repositories can be merged at once".toList
      else if !jsTruthy token || !isValidGitHubToken token then
        .badRequest "Valid token is required".toList
      else
        .createRepo
          { name := name'
            description := jsOrStr (some (sanitizeString description))
              ("Merged repository containing: ".toList ++
                List.intercalate ", ".toList (l.map (fun r => jsDisplay r.name)))
            «private» := isPrivate }

/-- The response of `POST /api/analyze-repos`. -/
inductive AnalyzeResponse where
  | badRequest (error : Str)
  | ok (analysis : Report)
deriving DecidableEq

/-- Whether an analyze response is the success (report-producing) branch. -/
def AnalyzeResponse.isOk : AnalyzeResponse → Bool
  | .ok _ => true
  | .badRequest _ => false

/-- The `POST /api/analyze-repos` handler: `!repositories ||
!Array.isArray(repositories)` rejects with 400, everything else (including an
empty array) is passed to `generateReport`. `now` is the wall clock the
analytics bucket computations read. -/
def analyzeReposHandler (now : Int) (repositories : ReposField Repo) : AnalyzeResponse :=
  match repositories with
  | .notArray => .badRequest "Valid repositories array is required".toList
  | .arr l => .ok (generateReport now l)

/-- The comparison carried by a successful `POST /api/compare-repos`
response, per mode. -/
inductive ComparisonPayload where
  | two (c : TwoComparison)
  | multiple (m : CompareMatrix)
  | best (b : BestResult)
deriving DecidableEq

/-- The response of `POST /api/compare-repos`: a 400 with `error` and
optional `details` fields, or a computed comparison. -/
inductive CompareResponse where
  | badRequest (error : Str) (details : Option Str)
  | ok (comparison : ComparisonPayload)
deriving DecidableEq

/-- Whether a compare response is the success (comparison-producing) branch. -/
def CompareResponse.isOk : CompareResponse → Bool
  | .ok _ => true
  | .badRequest _ _ => false

/-- The `POST /api/compare-repos` handler: `mode` defaults to `'two'` only
when absent (`undefined`, by destructuring default); mode `two` requires
exactly two records, modes `multiple` and `best` take the array as is, and
anything else is a 400. `criteria` is `req.body.criteria || 'stars'`. -/
def compareReposHandler (repositories : ReposField Repo) (mode criteria : JSVal) :
    CompareResponse :=
  let mode := match mode with | .undef => JSVal.str "two".toList | m => m
  match repositories with
  | .notArray => .badRequest "Valid repositories array is required".toList none
  | .arr l =>
    if mode = JSVal.str "two".toList ∧ l.length = 2 then
      .ok (.two (compareTwo (l.getD 0 default) (l.getD 1 default)))
    else if mode = JSVal.str "multiple".toList then
      .ok (.multiple (compareMultiple l))
    else if mode = JSVal.str "best".toList then
      .ok (.best (findBest l (if jsTruthy criteria then jsDisplay criteria
        else "stars".toList)))
    else
      .badRequest "Invalid comparison mode or repository count".toList
        (some "Mode \"two\" requires exactly 2 repositories".toList)

/-- The username format rule exactly as the spec words it (for comparison
with the code's regex): 1–39 characters, each alphanumeric or hyphen, and
the string neither starts nor ends with a hyphen. Character classes are the
ASCII ones the code's regex uses. -/
def specUsernameRule (s : Str) : Prop :=
  1 ≤ s.length ∧ s.length ≤ 39 ∧ (∀ c ∈ s, isUsernameChar c = true) ∧
  s.head? ≠ some '-' ∧ s.getLast? ≠ some '-'

/-- Whether a string ends in a trim-removable whitespace character. -/
def endsInWhitespace (s : Str) : Bool :=
  match s.getLast? with
  | some c => isJsWhitespace c
  | none => false

/-! ### Concrete records used by counterexamples and witnesses -/

/-- A minimal repository record: no language, license or topics, and all
numeric fields zero. -/
def sampleRepo : Repo :=
  { name := "repo".toList, language := none, license := none, topics := none
    size := 0, stargazers_count := 0, forks_count := 0, watchers_count := 0
    open_issues_count := 0, «private» := false, fork := false, archived := false
    created_at := 0, updated_at := 0 }

/-- A record whose topics list contains a duplicated entry. -/
def dupTopicsRepo : Repo :=
  { sampleRepo with name := "left".toList
                    topics := some ["dup".toList, "dup".toList] }

/-- A record with the duplicated topic of `dupTopicsRepo` listed once. -/
def oneTopicRepo : Repo :=
  { sampleRepo with name := "right".toList, topics := some ["dup".toList] }

/-- A record with a non-empty, duplicate-free topics list and positive size. -/
def richRepoA : Repo :=
  { sampleRepo with name := "alpha".toList, topics := some ["web".toList]
                    size := 12, language := some "js".toList }

/-- `richRepoA` under another name (all compared fields identical). -/
def richRepoB : Repo := { richRepoA with name := "beta".toList }

/-- A record with duplicate-free topics, used for the symmetry witness. -/
def nodupRepoA : Repo :=
  { sampleRepo with name := "first".toList
                    topics := some ["a".toList, "b".toList], size := 10 }

/-- A second duplicate-free record differing from `nodupRepoA`. -/
def nodupRepoB : Repo :=
  { sampleRepo with name := "second".toList
                    topics := some ["b".toList, "c".toList], size := 30
                    language := some "go".toList }

/-- Two records with every count metric equal (all 7) but different names. -/
def tieRepo1 : Repo :=
  { sampleRepo with name := "one".toList, size := 7, stargazers_count := 7
                    forks_count := 7, watchers_count := 7, open_issues_count := 7 }

/-- The partner of `tieRepo1` in the tie witness. -/
def tieRepo2 : Repo := { tieRepo1 with name := "two".toList }

/-- Fifty-one identical source-repository summaries. -/
def fiftyOneRepos : List RepoSummary :=
  List.replicate 51 { name := .str "r".toList, clone_url := "u".toList }

/-- A 1001-character string whose 1000th character is a space: sanitizing
truncates to 1000 characters and leaves a trailing space that a second
sanitization trims away. -/
def longSpacedStr : Str := List.replicate 999 'a' ++ [' ', 'b']

/-! ## Theorems for the claims -/

/-- C1: a `GET /api/user` request with no `Authorization` header is rejected
with the token-required validation error whatever the query string holds,
and the handler's response never depends on the query string (the
query-supplied token is never read or honored). -/
theorem user_query_token_ignored :
    (∀ query : List (Str × Str),
      apiUserHandler none query = .badRequest "Valid token is required".toList) ∧
    ∀ (authHeader : Option Str) (q1 q2 : List (Str × Str)),
      apiUserHandler authHeader q1 = apiUserHandler authHeader q2 :=
  ⟨fun _ => rfl, fun _ _ _ => rfl⟩

/-- C2: with a valid (sanitized) repository name, a `repositories` list of
more than 50 entries is rejected with the 50-repository-maximum error and no
upstream repository-creation call is made, and an empty list is rejected
with a validation error before any external call. -/
theorem create_merged_repo_limit_enforced
    (name description token : JSVal) (reps : List RepoSummary) (isPrivate : Bool)
    (hname : isValidRepositoryName (.str (sanitizeString name)) = true) :
    (50 < reps.length →
      createMergedRepoHandler name description (.arr reps) token isPrivate =
        .badRequest "Maximum 50 repositories can be merged at once".toList ∧
      ∀ p, createMergedRepoHandler name description (.arr reps) token isPrivate ≠
        .createRepo p) ∧
    createMergedRepoHandler name description (.arr []) token isPrivate =
      .badRequest "At least one repository is required".toList := by
  have hne : sanitizeString name ≠ [] := by
    intro h
    rw [h] at hname
    simp [isValidRepositoryName] at hname
  have htr : jsTruthy (.str (sanitizeString name)) = true := by
    simp only [jsTruthy, Bool.not_eq_true']
    exact List.isEmpty_eq_false.mpr hne
  constructor
  · intro hlen
    have heq : createMergedRepoHandler name description (.arr reps) token isPrivate =
        .badRequest "Maximum 50 repositories can be merged at once".toList := by
      simp only [createMergedRepoHandler, htr, hname, Bool.not_true, Bool.or_self,
        Bool.false_or]
      rw [if_neg Bool.false_ne_true, if_neg (by omega : ¬ reps.length = 0),
        if_pos (by omega : reps.length > 50)]
    refine ⟨heq, fun p h => ?_⟩
    rw [heq] at h
    exact MergedRepoResponse.noConfusion h
  · simp only [createMergedRepoHandler, htr, hname, Bool.not_true, Bool.or_self,
      Bool.false_or]
    rw [if_neg Bool.false_ne_true, if_pos (by simp : ([] : List RepoSummary).length = 0)]

/-- Witness for C2 at concrete inputs: the name `merged-repo` is valid, a
51-entry list draws the maximum-50 rejection, and an empty list draws the
at-least-one rejection. -/
theorem create_merged_repo_limit_enforced_witness :
    createMergedRepoHandler (.str "merged-repo".toList) .undef (.arr fiftyOneRepos)
        .null false =
      .badRequest "Maximum 50 repositories can be merged at once".toList ∧
    createMergedRepoHandler (.str "merged-repo".toList) .undef (.arr []) .null false =
      .badRequest "At least one repository is required".toList :=
  ⟨((create_merged_repo_limit_enforced _ _ _ _ _ (by decide)).1 (by decide)).1,
   (create_merged_repo_limit_enforced (.str "merged-repo".toList) .undef .null
     fiftyOneRepos false (by decide)).2⟩

/-- C5 counterexample: an empty `repositories` array is not rejected by
`POST /api/analyze-repos` — the handler takes the success branch and
produces an analysis report, contradicting the claim that an empty array is
a validation error. -/
theorem analyze_empty_array_not_rejected :
    (analyzeReposHandler 0 (.arr [])).isOk = true := rfl

/-- C5 amended: a missing or non-array `repositories` input is rejected with
the 400 validation error and no report is produced, while an empty array is
accepted and an analysis report is generated for it. -/
theorem analyze_validation_behavior :
    (∀ now : Int, analyzeReposHandler now .notArray =
      .badRequest "Valid repositories array is required".toList) ∧
    ∀ now : Int, analyzeReposHandler now (.arr []) = .ok (generateReport now []) :=
  ⟨fun _ => rfl, fun _ => rfl⟩

/-- C8: for every pair of inputs, `validatePagination` returns a page of at
least 1 and a per-page between 1 and 100, and the per-page defaults to 30
when the input does not parse to a number. -/
theorem pagination_always_bounded :
    ∀ page perPage : JSVal,
      1 ≤ (validatePagination page perPage).1 ∧
      1 ≤ (validatePagination page perPage).2 ∧
      (validatePagination page perPage).2 ≤ 100 ∧
      (jsParseInt perPage = none → (validatePagination page perPage).2 = 30) := by
  intro p pp
  unfold validatePagination
  refine ⟨le_max_left 1 _, le_min (by norm_num) (le_max_left 1 _), min_le_left _ _, ?_⟩
  intro h
  rw [h]
  norm_num [jsOrInt]

/-- Witness for C8 at concrete invalid inputs: a negative page and a
non-numeric per-page string yield a page of at least 1 and the default
per-page of 30. -/
theorem pagination_always_bounded_witness :
    1 ≤ (validatePagination (.num (-5)) (.str "xyz".toList)).1 ∧
    (validatePagination (.num (-5)) (.str "xyz".toList)).2 = 30 :=
  ⟨(pagination_always_bounded (.num (-5)) (.str "xyz".toList)).1,
   (pagination_always_bounded (.num (-5)) (.str "xyz".toList)).2.2.2 (by decide)⟩

/-- C10: in `compareTwo`, whenever the two records agree on a count metric,
the reported `winner` (stars, forks, watchers), `larger` (size) or `more`
(issues) is the second record's name. -/
theorem compare_two_tie_reports_second (r1 r2 : Repo) :
    (r1.stargazers_count = r2.stargazers_count →
      (compareTwo r1 r2).metrics.stars.winner = r2.name) ∧
    (r1.forks_count = r2.forks_count →
      (compareTwo r1 r2).metrics.forks.winner = r2.name) ∧
    (r1.watchers_count = r2.watchers_count →
      (compareTwo r1 r2).metrics.watchers.winner = r2.name) ∧
    (r1.size = r2.size → (compareTwo r1 r2).metrics.size.larger = r2.name) ∧
    (r1.open_issues_count = r2.open_issues_count →
      (compareTwo r1 r2).metrics.issues.more = r2.name) := by
  refine ⟨fun h => ?_, fun h => ?_, fun h => ?_, fun h => ?_, fun h => ?_⟩ <;>
    simp [compareTwo, h]

/-- Witness for C10 at two concrete records with every count metric equal:
each tied metric names the second record. -/
theorem compare_two_tie_reports_second_witness :
    (compareTwo tieRepo1 tieRepo2).metrics.stars.winner = tieRepo2.name ∧
    (compareTwo tieRepo1 tieRepo2).metrics.forks.winner = tieRepo2.name ∧
    (compareTwo tieRepo1 tieRepo2).metrics.watchers.winner = tieRepo2.name ∧
    (compareTwo tieRepo1 tieRepo2).metrics.size.larger = tieRepo2.name ∧
    (compareTwo tieRepo1 tieRepo2).metrics.issues.more = tieRepo2.name :=
  ⟨(compare_two_tie_reports_second tieRepo1 tieRepo2).1 rfl,
   (compare_two_tie_reports_second tieRepo1 tieRepo2).2.1 rfl,
   (compare_two_tie_reports_second tieRepo1 tieRepo2).2.2.1 rfl,
   (compare_two_tie_reports_second tieRepo1 tieRepo2).2.2.2.1 rfl,
   (compare_two_tie_reports_second tieRepo1 tieRepo2).2.2.2.2 rfl⟩

/-! ### Helper lemmas about the topic-overlap computation -/

/-- The distinct-topic count is the cardinality of the union of the two
topic sets. -/
theorem totalTopics_eq_card (r1 r2 : Repo) :
    totalTopics r1 r2 = ((jsTopics r1).toFinset ∪ (jsTopics r2).toFinset).card := by
  unfold totalTopics
  rw [← List.card_toFinset, List.toFinset_append]

/-- When the first topics list has no duplicates, the membership filter
counts exactly the intersection of the two topic sets. -/
theorem commonTopics_length_eq_card {r1 r2 : Repo} (h : (jsTopics r1).Nodup) :
    (commonTopics r1 r2).length =
      ((jsTopics r1).toFinset ∩ (jsTopics r2).toFinset).card := by
  unfold commonTopics
  have hnd : ((jsTopics r1).filter (fun t => decide (t ∈ jsTopics r2))).Nodup :=
    h.filter _
  rw [← List.toFinset_card_of_nodup hnd, List.toFinset_filter]
  congr 1
  ext a
  simp [List.mem_toFinset]

/-- The language component is symmetric. -/
theorem languageScore_comm (r1 r2 : Repo) :
    languageScore r1 r2 = languageScore r2 r1 := by
  simp [languageScore, eq_comm]

/-- The license component is symmetric. -/
theorem licenseScore_comm (r1 r2 : Repo) :
    licenseScore r1 r2 = licenseScore r2 r1 := by
  simp [licenseScore, eq_comm]

/-- The visibility component is symmetric. -/
theorem visibilityScore_comm (r1 r2 : Repo) :
    visibilityScore r1 r2 = visibilityScore r2 r1 := by
  simp [visibilityScore, eq_comm]

/-- The fork-status component is symmetric. -/
theorem forkScore_comm (r1 r2 : Repo) :
    forkScore r1 r2 = forkScore r2 r1 := by
  simp [forkScore, eq_comm]

/-- The size component is symmetric. -/
theorem sizeScore_comm (r1 r2 : Repo) : sizeScore r1 r2 = sizeScore r2 r1 := by
  unfold sizeScore
  rw [abs_sub_comm, add_comm]

/-- The topic component is symmetric whenever neither topics list repeats an
entry. -/
theorem topicsScore_comm {r1 r2 : Repo} (h1 : (jsTopics r1).Nodup)
    (h2 : (jsTopics r2).Nodup) : topicsScore r1 r2 = topicsScore r2 r1 := by
  unfold topicsScore
  rw [commonTopics_length_eq_card h1, commonTopics_length_eq_card h2,
    totalTopics_eq_card, totalTopics_eq_card, Finset.inter_comm, Finset.union_comm]

/-! ### C3 and C6: the similarity score -/

/-- C3 counterexample: a record that is identical to itself in every
compared field but has an empty topics list and size 0 scores 50, not 100 —
the topic and size components contribute nothing there. -/
theorem similarity_identical_not_100 :
    calculateSimilarity sampleRepo sampleRepo = 50 ∧
    calculateSimilarity sampleRepo sampleRepo ≠ 100 := by
  have hl : languageScore sampleRepo sampleRepo = 20 := by
    simp [languageScore]
  have hlic : licenseScore sampleRepo sampleRepo = 10 := by
    simp [licenseScore]
  have ht : topicsScore sampleRepo sampleRepo = 0 := by
    have h0 : totalTopics sampleRepo sampleRepo = 0 := by decide
    unfold topicsScore
    rw [h0]
    norm_num
  have hs : sizeScore sampleRepo sampleRepo = 0 := by
    unfold sizeScore
    norm_num [sampleRepo]
  have hv : visibilityScore sampleRepo sampleRepo = 10 := by
    simp [visibilityScore]
  have hf : forkScore sampleRepo sampleRepo = 10 := by
    simp [forkScore]
  have h60 : calculateSimilarity sampleRepo sampleRepo = 50 := by
    unfold calculateSimilarity
    rw [hl, hlic, ht, hs, hv, hf]
    unfold similarityMaxScore jsRound
    norm_num
  refine ⟨h60, fun hcontra => ?_⟩
  rw [h60] at hcontra
  exact absurd hcontra (by decide)

/-- C3 amended: the similarity of two records that agree on every compared
field is exactly 100 provided the (shared) topics list is non-empty and free
of duplicates and the (shared) size is positive; with an empty topics union
or a zero average size the corresponding component contributes 0 and the
score falls short of 100. -/
theorem similarity_identical_is_100 (r1 r2 : Repo)
    (hlang : r1.language = r2.language) (hlic : licenseName r1 = licenseName r2)
    (htop : jsTopics r1 = jsTopics r2) (hsize : r1.size = r2.size)
    (hpriv : r1.«private» = r2.«private») (hfork : r1.fork = r2.fork)
    (hnodup : (jsTopics r1).Nodup) (hne : jsTopics r1 ≠ [])
    (hpos : 0 < r1.size) :
    calculateSimilarity r1 r2 = 100 := by
  have hlangS : languageScore r1 r2 = 20 := by simp [languageScore, hlang]
  have hlicS : licenseScore r1 r2 = 10 := by simp [licenseScore, hlic]
  have hvisS : visibilityScore r1 r2 = 10 := by simp [visibilityScore, hpriv]
  have hforkS : forkScore r1 r2 = 10 := by simp [forkScore, hfork]
  have hposLen : 0 < (jsTopics r1).length := List.length_pos.mpr hne
  have hcommon : (commonTopics r1 r2).length = (jsTopics r1).length := by
    unfold commonTopics
    rw [← htop, List.filter_eq_self.mpr]
    intro a ha
    simpa using ha
  have htotal : totalTopics r1 r2 = (jsTopics r1).length := by
    rw [totalTopics_eq_card, ← htop, Finset.union_self,
      List.toFinset_card_of_nodup hnodup]
  have htopS : topicsScore r1 r2 = 30 := by
    unfold topicsScore
    rw [htotal, hcommon, if_pos hposLen,
      div_self (by exact_mod_cast hposLen.ne' : ((jsTopics r1).length : ℚ) ≠ 0)]
    norm_num
  have hsizeS : sizeScore r1 r2 = 20 := by
    unfold sizeScore
    rw [← hsize, sub_self, abs_zero]
    have hx : (0 : ℚ) < (r1.size : ℚ) := by exact_mod_cast hpos
    rw [show ((r1.size : ℚ) + (r1.size : ℚ)) / 2 = (r1.size : ℚ) by ring, if_pos hx]
    rw [zero_div, sub_zero, one_mul]
    norm_num
  unfold calculateSimilarity
  rw [hlangS, hlicS, htopS, hsizeS, hvisS, hforkS]
  unfold similarityMaxScore jsRound
  norm_num

/-- Witness for the amended C3 at two concrete records that agree on every
compared field, with a one-element topics list and size 12: the score is
exactly 100. -/
theorem similarity_identical_is_100_witness :
    calculateSimilarity richRepoA richRepoB = 100 :=
  similarity_identical_is_100 richRepoA richRepoB rfl rfl rfl rfl rfl rfl
    (by decide) (by decide) (by decide)

/-- C6 counterexample: with a duplicated topic on one side the membership
filter counts multiplicities, so the score is not symmetric — the records
`dupTopicsRepo` (topics `[dup, dup]`) and `oneTopicRepo` (topics `[dup]`)
score 110 one way and 80 the other. -/
theorem similarity_not_symmetric :
    calculateSimilarity dupTopicsRepo oneTopicRepo ≠
      calculateSimilarity oneTopicRepo dupTopicsRepo := by
  have hc1 : (commonTopics dupTopicsRepo oneTopicRepo).length = 2 := by decide
  have hc2 : (commonTopics oneTopicRepo dupTopicsRepo).length = 1 := by decide
  have ht1 : totalTopics dupTopicsRepo oneTopicRepo = 1 := by decide
  have ht2 : totalTopics oneTopicRepo dupTopicsRepo = 1 := by decide
  have h1 : topicsScore dupTopicsRepo oneTopicRepo = 60 := by
    unfold topicsScore
    rw [hc1, ht1]
    norm_num
  have h2 : topicsScore oneTopicRepo dupTopicsRepo = 30 := by
    unfold topicsScore
    rw [hc2, ht2]
    norm_num
  have hl1 : languageScore dupTopicsRepo oneTopicRepo = 20 := by
    simp [languageScore, dupTopicsRepo, oneTopicRepo, sampleRepo]
  have hl2 : languageScore oneTopicRepo dupTopicsRepo = 20 := by
    simp [languageScore, dupTopicsRepo, oneTopicRepo, sampleRepo]
  have hlic1 : licenseScore dupTopicsRepo oneTopicRepo = 10 := by
    simp [licenseScore, licenseName, dupTopicsRepo, oneTopicRepo, sampleRepo]
  have hlic2 : licenseScore oneTopicRepo dupTopicsRepo = 10 := by
    simp [licenseScore, licenseName, dupTopicsRepo, oneTopicRepo, sampleRepo]
  have hs1 : sizeScore dupTopicsRepo oneTopicRepo = 0 := by
    unfold sizeScore
    norm_num [dupTopicsRepo, oneTopicRepo, sampleRepo]
  have hs2 : sizeScore oneTopicRepo dupTopicsRepo = 0 := by
    unfold sizeScore
    norm_num [dupTopicsRepo, oneTopicRepo, sampleRepo]
  have hv1 : visibilityScore dupTopicsRepo oneTopicRepo = 10 := by
    simp [visibilityScore, dupTopicsRepo, oneTopicRepo, sampleRepo]
  have hv2 : visibilityScore oneTopicRepo dupTopicsRepo = 10 := by
    simp [visibilityScore, dupTopicsRepo, oneTopicRepo, sampleRepo]
  have hf1 : forkScore dupTopicsRepo oneTopicRepo = 10 := by
    simp [forkScore, dupTopicsRepo, oneTopicRepo, sampleRepo]
  have hf2 : forkScore oneTopicRepo dupTopicsRepo = 10 := by
    simp [forkScore, dupTopicsRepo, oneTopicRepo, sampleRepo]
  have e1 : calculateSimilarity dupTopicsRepo oneTopicRepo = 110 := by
    unfold calculateSimilarity
    rw [hl1, hlic1, h1, hs1, hv1, hf1]
    unfold similarityMaxScore jsRound
    norm_num
  have e2 : calculateSimilarity oneTopicRepo dupTopicsRepo = 80 := by
    unfold calculateSimilarity
    rw [hl2, hlic2, h2, hs2, hv2, hf2]
    unfold similarityMaxScore jsRound
    norm_num
  rw [e1, e2]
  decide

/-- C6 amended: the similarity score is symmetric for every pair of records
whose topics lists are free of duplicate entries (the counterexample above
needs a repeated topic). -/
theorem similarity_symmetric_of_nodup (r1 r2 : Repo)
    (h1 : (jsTopics r1).Nodup) (h2 : (jsTopics r2).Nodup) :
    calculateSimilarity r1 r2 = calculateSimilarity r2 r1 := by
  unfold calculateSimilarity
  rw [languageScore_comm, licenseScore_comm, topicsScore_comm h1 h2,
    sizeScore_comm, visibilityScore_comm, forkScore_comm]

/-- Witness for the amended C6 at two concrete duplicate-free records. -/
theorem similarity_symmetric_of_nodup_witness :
    calculateSimilarity nodupRepoA nodupRepoB =
      calculateSimilarity nodupRepoB nodupRepoA :=
  similarity_symmetric_of_nodup nodupRepoA nodupRepoB (by decide) (by decide)

/-! ### C4: compare-repos mode dispatch -/

/-- C4 counterexample: `POST /api/compare-repos` with mode `multiple` and an
empty `repositories` array is not rejected — the handler computes a
comparison, contradicting the claim that fewer than 2 records draw a
validation error for modes `multiple` and `best`. -/
theorem compare_multiple_empty_not_rejected :
    (compareReposHandler (.arr []) (.str "multiple".toList) .undef).isOk = true := by
  decide

/-- C4 amended: mode `two` with a repository count other than 2 is rejected
before any comparison, and an unrecognized mode is rejected; but modes
`multiple` and `best` accept any array — including 0 or 1 records — and
compute over it. -/
theorem compare_mode_dispatch :
    (∀ (l : List Repo) (criteria : JSVal), l.length ≠ 2 →
      compareReposHandler (.arr l) (.str "two".toList) criteria =
        .badRequest "Invalid comparison mode or repository count".toList
          (some "Mode \"two\" requires exactly 2 repositories".toList)) ∧
    (∀ (l : List Repo) (mode criteria : JSVal),
      mode ≠ .str "two".toList → mode ≠ .str "multiple".toList →
      mode ≠ .str "best".toList → mode ≠ .undef →
      compareReposHandler (.arr l) mode criteria =
        .badRequest "Invalid comparison mode or repository count".toList
          (some "Mode \"two\" requires exactly 2 repositories".toList)) ∧
    (∀ (l : List Repo) (criteria : JSVal),
      compareReposHandler (.arr l) (.str "multiple".toList) criteria =
        .ok (.multiple (compareMultiple l))) ∧
    (∀ (l : List Repo) (criteria : JSVal),
      compareReposHandler (.arr l) (.str "best".toList) criteria =
        .ok (.best (findBest l
          (if jsTruthy criteria then jsDisplay criteria else "stars".toList)))) := by
  refine ⟨?_, ?_, ?_, ?_⟩
  · intro l criteria hlen
    simp only [compareReposHandler]
    rw [if_neg (fun hc => hlen hc.2), if_neg (by decide), if_neg (by decide)]
  · intro l mode criteria h1 h2 h3 h4
    have hmode : (match mode with | .undef => JSVal.str "two".toList | m => m) = mode := by
      cases mode
      case undef => exact absurd rfl h4
      all_goals rfl
    simp only [compareReposHandler, hmode]
    rw [if_neg (fun hc => h1 hc.1), if_neg h2, if_neg h3]
  · intro l criteria
    simp only [compareReposHandler]
    rw [if_neg (fun hc => by exact JSVal.noConfusion hc.1 (fun h => by simp at h))]
    simp
  · intro l criteria
    simp only [compareReposHandler]
    rw [if_neg (fun hc => by exact JSVal.noConfusion hc.1 (fun h => by simp at h)),
      if_neg (by decide)]
    simp

/-- Witness for the amended C4 at concrete inputs: a one-record list in mode
`two` and an unknown mode are both rejected, while the same one-record list
in mode `multiple` is processed. -/
theorem compare_mode_dispatch_witness :
    compareReposHandler (.arr [sampleRepo]) (.str "two".toList) .undef =
      .badRequest "Invalid comparison mode or repository count".toList
        (some "Mode \"two\" requires exactly 2 repositories".toList) ∧
    compareReposHandler (.arr [sampleRepo]) (.str "unknown".toList) .undef =
      .badRequest "Invalid comparison mode or repository count".toList
        (some "Mode \"two\" requires exactly 2 repositories".toList) ∧
    compareReposHandler (.arr [sampleRepo]) (.str "multiple".toList) .undef =
      .ok (.multiple (compareMultiple [sampleRepo])) :=
  ⟨compare_mode_dispatch.1 [sampleRepo] .undef (by decide),
   compare_mode_dispatch.2.1 [sampleRepo] (.str "unknown".toList) .undef
     (by decide) (by decide) (by decide) (by decide),
   compare_mode_dispatch.2.2.1 [sampleRepo] .undef⟩

/-! ### C9: the username regex against the spec's format rule -/

/-- An alphanumeric character is not a hyphen. -/
theorem isAlphaNumChar_ne_hyphen {c : Char} (h : isAlphaNumChar c = true) :
    c ≠ '-' := by
  rintro rfl
  exact absurd h (by decide)

/-- A character is alphanumeric exactly when it is in the username character
class but is not the hyphen. -/
theorem isAlphaNumChar_iff (c : Char) :
    isAlphaNumChar c = true ↔ (isUsernameChar c = true ∧ c ≠ '-') := by
  simp only [isUsernameChar, Bool.or_eq_true, decide_eq_true_eq]
  constructor
  · intro h
    exact ⟨Or.inl h, isAlphaNumChar_ne_hyphen h⟩
  · rintro ⟨h | h, hne⟩
    · exact h
    · exact absurd h hne

/-- The optional-group test on a non-empty remainder. -/
theorem usernameTailMatches_ne_nil {rest : Str} (h : rest ≠ []) :
    usernameTailMatches rest =
      (decide (rest.dropLast.length ≤ 37) && rest.dropLast.all isUsernameChar &&
        isAlphaNumChar (rest.getLastD ' ')) := by
  cases rest with
  | nil => exact absurd rfl h
  | cons a t => rfl

/-- C9: `isValidGitHubUsername` accepts a string exactly when the spec's
format rule holds (1–39 characters, alphanumeric or hyphen, no leading or
trailing hyphen), and rejects every non-string input. -/
theorem username_validation_matches_spec :
    (∀ s : Str, isValidGitHubUsername (.str s) = true ↔ specUsernameRule s) ∧
    (∀ n : Int, isValidGitHubUsername (.num n) = false) ∧
    (∀ b : Bool, isValidGitHubUsername (.bool b) = false) ∧
    isValidGitHubUsername .null = false ∧
    isValidGitHubUsername .undef = false := by
  refine ⟨?_, fun _ => rfl, fun _ => rfl, rfl, rfl⟩
  intro s
  cases s with
  | nil => simp [isValidGitHubUsername, specUsernameRule]
  | cons c rest =>
    rcases List.eq_nil_or_concat rest with rfl | ⟨mid, las, hrest⟩
    · simp only [isValidGitHubUsername, usernameTailMatches, Bool.and_true]
      rw [isAlphaNumChar_iff]
      unfold specUsernameRule
      simp [isUsernameChar]
    · rw [List.concat_eq_append] at hrest
      subst hrest
      have hne : mid ++ [las] ≠ [] := by simp
      simp only [isValidGitHubUsername, usernameTailMatches_ne_nil hne,
        List.dropLast_concat, List.getLastD_concat, Bool.and_eq_true,
        decide_eq_true_eq, List.all_eq_true]
      unfold specUsernameRule
      constructor
      · rintro ⟨hc, ⟨hlen, hmid⟩, hlas⟩
        refine ⟨by simp, ?_, ?_, ?_, ?_⟩
        · simp only [List.length_cons, List.length_append, List.length_singleton,
            List.length_nil]
          omega
        · intro ch hch
          rcases List.mem_cons.mp hch with rfl | hch
          · exact ((isAlphaNumChar_iff ch).mp hc).1
          · rcases List.mem_append.mp hch with hm | hm
            · exact hmid ch hm
            · rw [List.mem_singleton.mp hm]
              exact ((isAlphaNumChar_iff las).mp hlas).1
        · intro hhead
          exact ((isAlphaNumChar_iff c).mp hc).2 (by simpa using hhead)
        · rw [show c :: (mid ++ [las]) = (c :: mid) ++ [las] from rfl,
            List.getLast?_concat]
          intro hlast
          exact ((isAlphaNumChar_iff las).mp hlas).2 (by simpa using hlast)
      · rintro ⟨-, h2, hall, hhead, hlast⟩
        have hcU : isUsernameChar c = true := hall c (List.mem_cons_self _ _)
        have hcne : c ≠ '-' := by
          intro hc
          exact hhead (by simp [hc])
        have hlasU : isUsernameChar las = true := hall las (by simp)
        have hlasne : las ≠ '-' := by
          intro hlaseq
          rw [show c :: (mid ++ [las]) = (c :: mid) ++ [las] from rfl,
            List.getLast?_concat] at hlast
          exact hlast (by simp [hlaseq])
        refine ⟨(isAlphaNumChar_iff c).mpr ⟨hcU, hcne⟩, ⟨?_, ?_⟩,
          (isAlphaNumChar_iff las).mpr ⟨hlasU, hlasne⟩⟩
        · simp only [List.length_cons, List.length_append, List.length_singleton,
            List.length_nil] at h2
          omega
        · intro ch hch
          exact hall ch (by simp [hch])

/-- Witness for C9: the name `octocat` satisfies the spec rule (derived by
applying the equivalence to the code's acceptance of it), and the code
rejects `-bad`. -/
theorem username_validation_matches_spec_witness :
    specUsernameRule "octocat".toList ∧
    isValidGitHubUsername (.str "-bad".toList) = false :=
  ⟨(username_validation_matches_spec.1 "octocat".toList).mp (by decide), by decide⟩

/-! ### C7: idempotence of sanitizeString -/

/-- C7 counterexample: a 1001-character input whose 1000th character is a
space defeats idempotence — the first sanitization trims nothing but
truncation leaves a trailing space, and a second sanitization trims it. -/
theorem sanitize_not_idempotent :
    sanitizeString (.str (sanitizeString (.str longSpacedStr))) ≠
      sanitizeString (.str longSpacedStr) := by
  decide

/-- The head of a `dropWhile` result does not satisfy the predicate. -/
theorem head?_dropWhile_not (p : Char → Bool) (l : Str) {c : Char}
    (h : (l.dropWhile p).head? = some c) : p c = false := by
  induction l with
  | nil => simp [List.dropWhile] at h
  | cons a t ih =>
    rw [List.dropWhile_cons] at h
    by_cases hpa : p a = true
    · rw [if_pos hpa] at h
      exact ih h
    · rw [if_neg hpa] at h
      simp only [List.head?_cons, Option.some_inj] at h
      subst h
      simpa using hpa

/-- `dropWhile` is the identity when the head does not satisfy the
predicate. -/
theorem dropWhile_eq_self_of_head (p : Char → Bool) (l : Str)
    (h : ∀ c, l.head? = some c → p c = false) : l.dropWhile p = l := by
  cases l with
  | nil => rfl
  | cons a t =>
    rw [List.dropWhile_cons, if_neg]
    simp [h a rfl]

/-- Removing trailing whitespace yields a prefix of the input. -/
theorem dropTrailingWs_prefix_self (m : Str) : dropTrailingWs m <+: m := by
  unfold dropTrailingWs
  have : (m.reverse.dropWhile isJsWhitespace).reverse <+: m.reverse.reverse :=
    List.reverse_prefix.mpr (List.dropWhile_suffix _)
  simpa using this

/-- A non-empty prefix has the same head as the full list. -/
theorem head?_of_prefix {l m : Str} {c : Char} (h : l <+: m)
    (hc : l.head? = some c) : m.head? = some c := by
  obtain ⟨t, rfl⟩ := h
  cases l with
  | nil => simp at hc
  | cons a u => simpa using hc

/-- Removing trailing whitespace is the identity when the last character is
not whitespace. -/
theorem dropTrailingWs_eq_self {r : Str}
    (h : ∀ c, r.getLast? = some c → isJsWhitespace c = false) :
    dropTrailingWs r = r := by
  unfold dropTrailingWs
  rw [dropWhile_eq_self_of_head isJsWhitespace r.reverse, List.reverse_reverse]
  intro c hc
  exact h c (by rwa [List.head?_reverse] at hc)

/-- Everything in a trimmed list is in the original. -/
theorem jsTrim_subset (l : Str) : jsTrim l ⊆ l := by
  intro c hc
  unfold jsTrim at hc
  exact (List.dropWhile_sublist _).subset ((dropTrailingWs_prefix_self _).subset hc)

/-- Every character of a sanitized value survives the angle-bracket filter. -/
theorem sanitize_mem_filter (x : JSVal) :
    ∀ c ∈ sanitizeString x, (!(c = '<' || c = '>')) = true := by
  intro c hc
  match x with
  | .num _ | .bool _ | .null | .undef => simp [sanitizeString] at hc
  | .str s =>
    simp only [sanitizeString] at hc
    have h1 := List.take_subset _ _ hc
    have h2 := jsTrim_subset _ h1
    simpa using (List.mem_filter.mp h2).2

/-- The head of a sanitized value is never whitespace (leading whitespace is
trimmed before truncation, and truncation keeps a prefix). -/
theorem sanitize_head_not_ws (x : JSVal) {c : Char}
    (h : (sanitizeString x).head? = some c) : isJsWhitespace c = false := by
  match x with
  | .num _ | .bool _ | .null | .undef => simp [sanitizeString] at h
  | .str s =>
    simp only [sanitizeString] at h
    have h1 : (jsTrim (s.filter (fun c => !(c = '<' || c = '>')))).head? = some c :=
      head?_of_prefix (List.take_prefix _ _) h
    unfold jsTrim at h1
    have h2 := head?_of_prefix (dropTrailingWs_prefix_self _) h1
    exact head?_dropWhile_not _ _ h2

/-- C7 amended: `sanitize` is idempotent on every input whose sanitized form
does not end in whitespace — in particular on every non-string and on every
string that truncation leaves untouched; it fails only when cutting at the
1000-character limit exposes trailing whitespace, as in the counterexample. -/
theorem sanitize_idempotent_of_no_trailing_ws (x : JSVal)
    (h : endsInWhitespace (sanitizeString x) = false) :
    sanitizeString (.str (sanitizeString x)) = sanitizeString x := by
  have hfil : (sanitizeString x).filter (fun c => !(c = '<' || c = '>')) =
      sanitizeString x :=
    List.filter_eq_self.mpr (sanitize_mem_filter x)
  have hlast : ∀ c, (sanitizeString x).getLast? = some c →
      isJsWhitespace c = false := by
    intro c hc
    unfold endsInWhitespace at h
    rwa [hc] at h
  have hlen : (sanitizeString x).length ≤ 1000 := by
    cases x <;> simp [sanitizeString]
  show (jsTrim ((sanitizeString x).filter (fun c => !(c = '<' || c = '>')))).take 1000 =
    sanitizeString x
  rw [hfil]
  unfold jsTrim
  rw [dropWhile_eq_self_of_head _ _ (fun c hc => sanitize_head_not_ws x hc),
    dropTrailingWs_eq_self hlast]
  exact List.take_of_length_le hlen

/-- Witness for the amended C7 at a concrete messy input: sanitizing
`" <b>hi</b> "` yields `"bhi/b"`, which has no trailing whitespace, and a
second sanitization leaves it unchanged. -/
theorem sanitize_idempotent_witness :
    endsInWhitespace (sanitizeString (.str " <b>hi</b> ".toList)) = false ∧
    sanitizeString (.str (sanitizeString (.str " <b>hi</b> ".toList))) =
      sanitizeString (.str " <b>hi</b> ".toList) :=
  ⟨by decide, sanitize_idempotent_of_no_trailing_ws (.str " <b>hi</b> ".toList) (by decide)⟩

end Caromar
